import Mathlib

/-!
Verification development for the national-grid-live data aggregation pipeline.

The definitions below are shallow embeddings of the TypeScript source:
* `getNextFiveMinuteMark` embeds `src/utils/getNextFiveMinuteMark.ts`;
* the `GenerationPieChart` section embeds the category projection of
  `src/components/GenerationPieChart.tsx` and the `FuelList` grouping used by
  the Home page;
* the `Api` sections embed the proxy handlers of `src/pages/api/demand.ts`
  and the emissions/pricing handlers;
* `fetchData` embeds the aggregation step of the Home page component.

JavaScript numbers are modelled as exact rationals (`ℚ`); a feed field that is
missing or unparsable (`parseFloat` yielding `NaN`) is modelled as `none`.
Wall-clock times are modelled as milliseconds since the local epoch (`ℕ`).
-/

/-! ## Refresh scheduler: src/utils/getNextFiveMinuteMark.ts -/

/-- Milliseconds in one minute. -/
def msPerMinute : ℕ := 60000

/-- Milliseconds in one hour. -/
def msPerHour : ℕ := 3600000

/-- Milliseconds in the five-minute cadence period. -/
def fiveMinutesMs : ℕ := 300000

/-- Embedding of `getNextFiveMinuteMark` from
`src/utils/getNextFiveMinuteMark.ts`.  The argument `t` is the current
local-clock time in milliseconds.  The source reads the current minute of the
hour, computes `remaining = 5 - minutes % 5`, calls
`setMinutes(minutes + remaining, 0, 0)` (which rolls over into the next hour
when needed), and returns the difference `now.getTime() - Date.now()` in
milliseconds. -/
def getNextFiveMinuteMark (t : ℕ) : ℤ :=
  let minutes := (t % msPerHour) / msPerMinute
  let remaining := 5 - minutes % 5
  let hourStart := t - t % msPerHour
  let target := hourStart + (minutes + remaining) * msPerMinute
  (target : ℤ) - (t : ℤ)

/-- The adjusted time is exactly the next five-minute boundary strictly after
`t`: one period past the enclosing period's start. -/
theorem getNextFiveMinuteMark_eq (t : ℕ) :
    getNextFiveMinuteMark t = (fiveMinutesMs : ℤ) - (t % fiveMinutesMs : ℕ) := by
  simp only [getNextFiveMinuteMark, msPerHour, msPerMinute, fiveMinutesMs]
  omega

/-- C4. Scheduler alignment: for every current time `t`, the returned delay is
non-negative, `t` plus the delay lands exactly on a multiple of five minutes,
and that landing point is at or before every five-minute boundary strictly
after `t` (so it is the next one).  In particular, invoked at 14:03:00 local
time the function returns 120 seconds (120000 ms), targeting 14:05:00. -/
theorem scheduler_alignment :
    (∀ t : ℕ,
      0 ≤ getNextFiveMinuteMark t ∧
      ((t : ℤ) + getNextFiveMinuteMark t) % 300000 = 0 ∧
      ∀ b : ℤ, b % 300000 = 0 → (t : ℤ) < b →
        (t : ℤ) + getNextFiveMinuteMark t ≤ b) ∧
    getNextFiveMinuteMark (14 * 3600000 + 3 * 60000) = 120 * 1000 := by
  constructor
  · intro t
    have h := getNextFiveMinuteMark_eq t
    refine ⟨?_, ?_, ?_⟩
    · simp only [h, fiveMinutesMs]; omega
    · simp only [h, fiveMinutesMs]; omega
    · intro b hb hlt
      simp only [h, fiveMinutesMs]
      omega
  · rw [getNextFiveMinuteMark_eq]
    decide

/-- Closed witness for C4: at 14:03:00 (50580000 ms into the day), the next
boundary 14:05:00 (50700000 ms) is a five-minute multiple after the current
time, and the scheduled trigger is at or before it. -/
theorem scheduler_alignment_witness :
    (50700000 : ℤ) % 300000 = 0 ∧ (50580000 : ℤ) < 50700000 ∧
    (50580000 : ℤ) + getNextFiveMinuteMark 50580000 ≤ 50700000 :=
  ⟨by decide, by decide,
    (scheduler_alignment.1 50580000).2.2 50700000 (by decide) (by decide)⟩

/-- C10. Boundary policy: the delay is always strictly positive and never more
than one full period; invoked exactly on a five-minute boundary the function
returns one full period (300000 ms), never 0. -/
theorem scheduler_boundary_policy :
    (∀ t : ℕ,
      0 < getNextFiveMinuteMark t ∧ getNextFiveMinuteMark t ≤ 300000) ∧
    (∀ t : ℕ, t % 300000 = 0 → getNextFiveMinuteMark t = 300000) := by
  constructor
  · intro t
    have h := getNextFiveMinuteMark_eq t
    constructor <;> · simp only [h, fiveMinutesMs]; omega
  · intro t ht
    have h := getNextFiveMinuteMark_eq t
    simp only [h, fiveMinutesMs, ht]
    omega

/-- Closed witness for C10: at 15:00:00 exactly (a five-minute boundary), the
delay is the full period. -/
theorem scheduler_boundary_policy_witness :
    getNextFiveMinuteMark 54000000 = 300000 :=
  scheduler_boundary_policy.2 54000000 (by decide)

/-! ## Generation-mix category projection:
src/components/GenerationPieChart.tsx and the Home page FuelList grouping. -/

/-- One entry of the generation mix as consumed by the chart components
(`FuelSource` in `src/types`): a fuel name and an optional share percentage.
`none` models a missing `carbonIntensityPercentage`. -/
structure FuelSource where
  fuel : String
  carbonIntensityPercentage : Option ℚ
deriving DecidableEq

/-- The per-entry share used by `GenerationPieChart`:
`parseFloat(fuel.carbonIntensityPercentage?.toString() || "0")` — a missing
percentage is read as 0. -/
def sharePct (f : FuelSource) : ℚ :=
  f.carbonIntensityPercentage.getD 0

/-- The `renewables` aggregate of `GenerationPieChart`: filter on
`["wind", "solar", "hydro"].includes(fuel.fuel)` and reduce with `+` from 0. -/
def renewables (generationMix : List FuelSource) : ℚ :=
  (generationMix.filter (fun f => ["wind", "solar", "hydro"].contains f.fuel)).foldl
    (fun acc f => acc + sharePct f) 0

/-- The `fossilFuels` aggregate of `GenerationPieChart`: filter on
`["coal", "gas", "oil"].includes(fuel.fuel)` and reduce with `+` from 0. -/
def fossilFuels (generationMix : List FuelSource) : ℚ :=
  (generationMix.filter (fun f => ["coal", "gas", "oil"].contains f.fuel)).foldl
    (fun acc f => acc + sharePct f) 0

/-- The `others` aggregate of `GenerationPieChart`: filter on NOT
`["wind", "solar", "hydro", "coal", "gas", "oil"].includes(fuel.fuel)` and
reduce with `+` from 0. -/
def others (generationMix : List FuelSource) : ℚ :=
  (generationMix.filter
      (fun f => !(["wind", "solar", "hydro", "coal", "gas", "oil"].contains f.fuel))).foldl
    (fun acc f => acc + sharePct f) 0

/-- Sum of all individual share percentages of a mix (each entry contributing
the value the components read for it). -/
def totalShare (generationMix : List FuelSource) : ℚ :=
  (generationMix.map sharePct).sum

/-- Character-level embedding of JavaScript `String.prototype.toLowerCase` as
used by `FuelList` (ASCII fuel codes). -/
def jsToLower (s : String) : String :=
  String.mk (s.data.map Char.toLower)

/-- A category total of the Home page `FuelList` component
(`src/components/FuelList.tsx` as used in the Home page): filter on
`fuelTypes.includes(source.fuel.toLowerCase())` and reduce
`sum + (source.carbonIntensityPercentage || 0)` from 0. -/
def fuelListTotal (fuelTypes : List String) (generationMix : List FuelSource) : ℚ :=
  (generationMix.filter (fun s => fuelTypes.contains (jsToLower s.fuel))).foldl
    (fun sum s => sum + s.carbonIntensityPercentage.getD 0) 0

/-- Folding `+` over a filtered list from 0 is the sum of the kept shares. -/
theorem foldl_add_sharePct (p : FuelSource → Bool) (l : List FuelSource) :
    (l.filter p).foldl (fun acc f => acc + sharePct f) 0
      = ((l.filter p).map sharePct).sum := by
  have h : ∀ (m : List FuelSource) (a : ℚ),
      m.foldl (fun acc f => acc + sharePct f) a = a + (m.map sharePct).sum := by
    intro m
    induction m with
    | nil => intro a; simp
    | cons x xs ih =>
      intro a
      simp [List.foldl_cons, ih, add_assoc]
  simpa using h (l.filter p) 0
/-- Three pointwise-compatible filters split a sum: if `p` and `q` are
disjoint, the entries kept by `p`, those kept by `q`, and those kept by
neither sum to the whole. -/
theorem filter_three_way_sum (g : FuelSource → ℚ) (p q : FuelSource → Bool)
    (hdisj : ∀ x, p x = true → q x = false) (l : List FuelSource) :
    ((l.filter p).map g).sum + ((l.filter q).map g).sum
      + ((l.filter (fun x => !(p x || q x))).map g).sum = (l.map g).sum := by
  induction l with
  | nil => simp
  | cons x xs ih =>
    cases hp : p x
    · cases hq : q x
      · simp only [List.filter_cons, hp, hq, Bool.or_self, Bool.not_false,
          Bool.false_eq_true, if_false, if_true, List.map_cons, List.sum_cons]
        linarith [ih]
      · simp only [List.filter_cons, hp, hq, Bool.false_or, Bool.not_true,
          Bool.false_eq_true, if_false, if_true, List.map_cons, List.sum_cons]
        linarith [ih]
    · have hq := hdisj x hp
      simp only [List.filter_cons, hp, hq, Bool.true_or, Bool.not_true,
        Bool.false_eq_true, if_false, if_true, List.map_cons, List.sum_cons]
      linarith [ih]

/-- C5. The category projection is a partition: for every generation-mix
input, Renewables + Fossil Fuels + Other Sources equals the sum of all
individual share percentages. -/
theorem category_projection_partition (generationMix : List FuelSource) :
    renewables generationMix + fossilFuels generationMix + others generationMix
      = totalShare generationMix := by
  have hsplit : ∀ s : String,
      (["wind", "solar", "hydro", "coal", "gas", "oil"].contains s)
        = (["wind", "solar", "hydro"].contains s || ["coal", "gas", "oil"].contains s) := by
    intro s
    simp [List.contains_eq_any_beq, Bool.or_assoc]
  have hdisj : ∀ f : FuelSource, (["wind", "solar", "hydro"].contains f.fuel) = true →
      (["coal", "gas", "oil"].contains f.fuel) = false := by
    intro f
    simp only [List.contains_eq_any_beq, List.any_cons, List.any_nil, Bool.or_false,
      Bool.or_eq_true, beq_iff_eq, Bool.or_eq_false_iff, beq_eq_false_iff_ne]
    rintro (h | h | h) <;> rw [h] <;> exact ⟨by decide, by decide, by decide⟩
  have hothers :
      (fun f : FuelSource =>
          !(["wind", "solar", "hydro", "coal", "gas", "oil"].contains f.fuel))
        = (fun f : FuelSource =>
            !(["wind", "solar", "hydro"].contains f.fuel
              || ["coal", "gas", "oil"].contains f.fuel)) := by
    funext f
    rw [hsplit]
  simp only [renewables, fossilFuels, others, totalShare, foldl_add_sharePct, hothers]
  exact filter_three_way_sum sharePct _ _ hdisj generationMix


/-- The scenario mix from the spec:
`[{wind,20},{gas,30},{nuclear,15},{coal,5},{solar,10},{hydro,5},{biomass,5},{other,10}]`. -/
def scenarioMix : List FuelSource :=
  [⟨"wind", some 20⟩, ⟨"gas", some 30⟩, ⟨"nuclear", some 15⟩, ⟨"coal", some 5⟩,
   ⟨"solar", some 10⟩, ⟨"hydro", some 5⟩, ⟨"biomass", some 5⟩, ⟨"other", some 10⟩]

/-- The `fuelTypes` list the Home page passes to the "Fossil Fuels" FuelList:
`["coal", "gas"]` — oil is absent. -/
def homeFossilFuelTypes : List String := ["coal", "gas"]

/-- The `fuelTypes` list the Home page passes to the "Renewables" FuelList. -/
def homeRenewableFuelTypes : List String := ["wind", "solar", "hydro"]

/-- The `fuelTypes` list the Home page passes to the "Other Sources" FuelList:
an explicit enumeration, not a complement — oil is absent here as well. -/
def homeOtherFuelTypes : List String := ["nuclear", "biomass", "imports", "other"]

/-- C6 counterexample: the Home page's FuelList grouping does not assign oil to
Fossil Fuels (or to any category): on the mix `[{oil,10}]` every Home category
total is 0, while the pie chart's Fossil Fuels aggregate is 10.  So the
claimed membership `{coal, gas, oil} → Fossil Fuels` does not hold in every
component that computes the grouping. -/
theorem category_membership_counterexample :
    fuelListTotal homeFossilFuelTypes [⟨"oil", some 10⟩] = 0 ∧
    fuelListTotal homeRenewableFuelTypes [⟨"oil", some 10⟩] = 0 ∧
    fuelListTotal homeOtherFuelTypes [⟨"oil", some 10⟩] = 0 ∧
    fossilFuels [⟨"oil", some 10⟩] = 10 := by
  refine ⟨?_, ?_, ?_, ?_⟩
  · simp only [fuelListTotal]
    rw [(by decide : List.filter
      (fun s : FuelSource => homeFossilFuelTypes.contains (jsToLower s.fuel))
      [⟨"oil", some 10⟩] = ([] : List FuelSource))]
    norm_num
  · simp only [fuelListTotal]
    rw [(by decide : List.filter
      (fun s : FuelSource => homeRenewableFuelTypes.contains (jsToLower s.fuel))
      [⟨"oil", some 10⟩] = ([] : List FuelSource))]
    norm_num
  · simp only [fuelListTotal]
    rw [(by decide : List.filter
      (fun s : FuelSource => homeOtherFuelTypes.contains (jsToLower s.fuel))
      [⟨"oil", some 10⟩] = ([] : List FuelSource))]
    norm_num
  · simp only [fossilFuels]
    rw [(by decide : List.filter
      (fun f : FuelSource => ["coal", "gas", "oil"].contains f.fuel)
      [⟨"oil", some 10⟩] = ([⟨"oil", some 10⟩] : List FuelSource))]
    norm_num [List.foldl_cons, List.foldl_nil, sharePct]

/-- C6 amended.  The pie chart (`GenerationPieChart`) assigns
{wind, solar, hydro} to Renewables, {coal, gas, oil} to Fossil Fuels and every
other fuel to Other Sources; the Home page FuelList grouping instead uses
{coal, gas} for Fossil Fuels and the explicit list
{nuclear, biomass, imports, other} for Other Sources, so oil belongs to no
Home category.  On the scenario mix (which contains no oil and no imports)
both components yield Renewables = 35, Fossil = 35, Other = 30. -/
theorem category_membership_amended :
    (∀ (s : String) (q : ℚ),
      renewables [⟨s, some q⟩] = (if ["wind", "solar", "hydro"].contains s then q else 0) ∧
      fossilFuels [⟨s, some q⟩] = (if ["coal", "gas", "oil"].contains s then q else 0) ∧
      others [⟨s, some q⟩]
        = (if ["wind", "solar", "hydro", "coal", "gas", "oil"].contains s then 0 else q) ∧
      fuelListTotal homeFossilFuelTypes [⟨s, some q⟩]
        = (if homeFossilFuelTypes.contains (jsToLower s) then q else 0)) ∧
    renewables scenarioMix = 35 ∧
    fossilFuels scenarioMix = 35 ∧
    others scenarioMix = 30 ∧
    fuelListTotal homeRenewableFuelTypes scenarioMix = 35 ∧
    fuelListTotal homeFossilFuelTypes scenarioMix = 35 ∧
    fuelListTotal homeOtherFuelTypes scenarioMix = 30 := by
  refine ⟨?_, ?_, ?_, ?_, ?_, ?_, ?_⟩
  case refine_2 =>
    simp only [renewables]
    rw [(by decide : List.filter
      (fun f : FuelSource => ["wind", "solar", "hydro"].contains f.fuel) scenarioMix
      = ([⟨"wind", some 20⟩, ⟨"solar", some 10⟩, ⟨"hydro", some 5⟩] : List FuelSource))]
    norm_num [List.foldl_cons, List.foldl_nil, sharePct]
  case refine_3 =>
    simp only [fossilFuels]
    rw [(by decide : List.filter
      (fun f : FuelSource => ["coal", "gas", "oil"].contains f.fuel) scenarioMix
      = ([⟨"gas", some 30⟩, ⟨"coal", some 5⟩] : List FuelSource))]
    norm_num [List.foldl_cons, List.foldl_nil, sharePct]
  case refine_4 =>
    simp only [others]
    rw [(by decide : List.filter
      (fun f : FuelSource => !(["wind", "solar", "hydro", "coal", "gas", "oil"].contains f.fuel)) scenarioMix
      = ([⟨"nuclear", some 15⟩, ⟨"biomass", some 5⟩, ⟨"other", some 10⟩] : List FuelSource))]
    norm_num [List.foldl_cons, List.foldl_nil, sharePct]
  case refine_5 =>
    simp only [fuelListTotal]
    rw [(by decide : List.filter
      (fun s : FuelSource => homeRenewableFuelTypes.contains (jsToLower s.fuel)) scenarioMix
      = ([⟨"wind", some 20⟩, ⟨"solar", some 10⟩, ⟨"hydro", some 5⟩] : List FuelSource))]
    norm_num [List.foldl_cons, List.foldl_nil]
  case refine_6 =>
    simp only [fuelListTotal]
    rw [(by decide : List.filter
      (fun s : FuelSource => homeFossilFuelTypes.contains (jsToLower s.fuel)) scenarioMix
      = ([⟨"gas", some 30⟩, ⟨"coal", some 5⟩] : List FuelSource))]
    norm_num [List.foldl_cons, List.foldl_nil]
  case refine_7 =>
    simp only [fuelListTotal]
    rw [(by decide : List.filter
      (fun s : FuelSource => homeOtherFuelTypes.contains (jsToLower s.fuel)) scenarioMix
      = ([⟨"nuclear", some 15⟩, ⟨"biomass", some 5⟩, ⟨"other", some 10⟩] : List FuelSource))]
    norm_num [List.foldl_cons, List.foldl_nil]
  intro s q
  refine ⟨?_, ?_, ?_, ?_⟩
  · by_cases h : s = "wind" ∨ s = "solar" ∨ s = "hydro"
    · rcases h with rfl | rfl | rfl <;> simp [renewables, sharePct]
    · push_neg at h
      obtain ⟨h1, h2, h3⟩ := h
      simp [renewables, sharePct, h1, h2, h3]
  · by_cases h : s = "coal" ∨ s = "gas" ∨ s = "oil"
    · rcases h with rfl | rfl | rfl <;> simp [fossilFuels, sharePct]
    · push_neg at h
      obtain ⟨h1, h2, h3⟩ := h
      simp [fossilFuels, sharePct, h1, h2, h3]
  · by_cases h : s = "wind" ∨ s = "solar" ∨ s = "hydro" ∨ s = "coal" ∨ s = "gas" ∨ s = "oil"
    · rcases h with rfl | rfl | rfl | rfl | rfl | rfl <;> simp [others, sharePct]
    · push_neg at h
      obtain ⟨h1, h2, h3, h4, h5, h6⟩ := h
      simp [others, sharePct, h1, h2, h3, h4, h5, h6]
  · by_cases h : jsToLower s = "coal" ∨ jsToLower s = "gas"
    · rcases h with h | h <;> simp [fuelListTotal, homeFossilFuelTypes, h]
    · push_neg at h
      obtain ⟨h1, h2⟩ := h
      simp [fuelListTotal, homeFossilFuelTypes, h1, h2]

/-! ## Proxy API handlers: src/pages/api/demand.ts and the emissions/pricing
handlers.

Each handler is embedded as a function from the outcome of its fetch/parse
step to the HTTP response it writes.  `Except.error msg` models the
fetch/parse step throwing with internal message `msg` (transport errors,
`response.json()`/CSV-parse exceptions); the `Except.ok` payload is the
decoded body. -/

/-- An HTTP response written by a proxy handler: either
`res.status(s).json(payload)` or `res.status(s).json({error: msg})`. -/
inductive HandlerOut (α : Type) where
  | success (status : ℕ) (payload : α)
  | failure (status : ℕ) (error : String)
deriving DecidableEq

/-- One entry of the pricing feed (`PricingData` in the source).  The field
`price` is `Option ℚ`: `none` models a row whose `price` field is missing at
runtime (the TS type promises `number`, but the handler never checks). -/
structure PricingData where
  startTime : String
  price : Option ℚ
deriving DecidableEq

/-- The nested `intensity` object of one emissions row.  Optional fields model
runtime absence. -/
structure IntensityObj where
  forecast : Option ℚ
  actual : Option ℚ
  index : Option String
deriving DecidableEq

/-- One entry of the emissions feed (`EmissionsData` in the source).  The
`from`/`to` date strings are omitted: no code under verification reads them.
`intensity` is optional because the Home page reaches it with `?.`. -/
structure EmissionsData where
  intensity : Option IntensityObj
deriving DecidableEq

/-- One parsed CSV record of the demand feed, restricted to the columns the
Home page reads.  Each field is `Option ℚ`: `some q` models a present cell
whose text `parseFloat`s to `q`; `none` models a missing column or a cell on
which `parseFloat` yields `NaN`. -/
structure DemandRecord where
  ND : Option ℚ
  BRITNED_FLOW : Option ℚ
  IFA_FLOW : Option ℚ
  NEMO_FLOW : Option ℚ
  ELECLINK_FLOW : Option ℚ
  MOYLE_FLOW : Option ℚ
  NSL_FLOW : Option ℚ
  VIKING_FLOW : Option ℚ
deriving DecidableEq

namespace DemandApi

/-- Embedding of the `/api/demand` handler (`src/pages/api/demand.ts`): on a
successful fetch+parse it responds `200` with `{data: records[0]}` (modelled
as `records.head?`, since `records[0]` is `undefined` on an empty parse); on
any thrown error it responds `500` with the fixed generic body
`{error: "Failed to fetch demand data"}`. -/
def handler (fetchResult : Except String (List DemandRecord)) :
    HandlerOut (Option DemandRecord) :=
  match fetchResult with
  | .error _ => .failure 500 "Failed to fetch demand data"
  | .ok records => .success 200 records.head?

end DemandApi

namespace EmissionsApi

/-- Embedding of the `/api/emissions` handler: `Except.ok none` models a JSON
body whose `data` field is absent or null, which trips `if (!data.data)` and
throws into the same catch as fetch errors.  An empty array is truthy in
JavaScript, so `.ok (some [])` passes the check and is returned with 200. -/
def handler (fetchResult : Except String (Option (List EmissionsData))) :
    HandlerOut (List EmissionsData) :=
  match fetchResult with
  | .error _ => .failure 500 "Failed to fetch emissions data"
  | .ok none => .failure 500 "Failed to fetch emissions data"
  | .ok (some rows) => .success 200 rows

end EmissionsApi

namespace PricingApi

/-- Embedding of the `/api/pricing` handler: same shape as the emissions
handler, with its own generic error message. -/
def handler (fetchResult : Except String (Option (List PricingData))) :
    HandlerOut (List PricingData) :=
  match fetchResult with
  | .error _ => .failure 500 "Failed to fetch pricing data"
  | .ok none => .failure 500 "Failed to fetch pricing data"
  | .ok (some rows) => .success 200 rows

end PricingApi

/-- C7 counterexample: a response whose `data` wrapper is present but EMPTY is
not reported as a shape failure — both JSON clients return it with status 200.
The claim requires absence **or emptiness** to produce an error result; the
code checks only absence (`if (!data.data)`), and `[]` is truthy. -/
theorem envelope_validation_counterexample :
    PricingApi.handler (.ok (some [])) = .success 200 [] ∧
    EmissionsApi.handler (.ok (some [])) = .success 200 [] :=
  ⟨rfl, rfl⟩

/-- C7 amended.  The emissions and pricing clients validate only that the
wrapper field `data` exists: an absent/null `data` throws and yields the same
500 shape-failure response as a fetch error, but an empty `data` array passes
the check and is returned with status 200 (emptiness is absorbed downstream by
the Home page's optional chaining). -/
theorem envelope_validation_amended :
    (∀ msg : String,
      PricingApi.handler (.error msg) = .failure 500 "Failed to fetch pricing data") ∧
    (∀ msg : String,
      EmissionsApi.handler (.error msg) = .failure 500 "Failed to fetch emissions data") ∧
    PricingApi.handler (.ok none) = .failure 500 "Failed to fetch pricing data" ∧
    EmissionsApi.handler (.ok none) = .failure 500 "Failed to fetch emissions data" ∧
    (∀ rows, PricingApi.handler (.ok (some rows)) = .success 200 rows) ∧
    (∀ rows, EmissionsApi.handler (.ok (some rows)) = .success 200 rows) :=
  ⟨fun _ => rfl, fun _ => rfl, rfl, rfl, fun _ => rfl, fun _ => rfl⟩

/-- A demand record with ND = 1 and all flows 0. -/
def demandRecordA : DemandRecord :=
  ⟨some 1, some 0, some 0, some 0, some 0, some 0, some 0, some 0⟩

/-- A demand record with ND = 2 and all flows 0, distinct from
`demandRecordA`. -/
def demandRecordB : DemandRecord :=
  ⟨some 2, some 0, some 0, some 0, some 0, some 0, some 0, some 0⟩

/-- C8 counterexample: on success the demand endpoint does not return the
upstream payload — it returns `{data: records[0]}`, the first parsed record
only.  Two distinct upstream payloads (two records vs. one) produce the same
response, so the response cannot be the upstream payload. -/
theorem proxy_error_surface_counterexample :
    DemandApi.handler (.ok [demandRecordA, demandRecordB])
      = .success 200 (some demandRecordA) ∧
    DemandApi.handler (.ok [demandRecordA, demandRecordB])
      = DemandApi.handler (.ok [demandRecordA]) ∧
    ([demandRecordA, demandRecordB] : List DemandRecord) ≠ [demandRecordA] :=
  ⟨rfl, rfl, by decide⟩

/-- C8 amended.  On any Source Client fetch/parse failure each feed endpoint
responds 500 with the structured body `{error: string}` whose message is a
fixed generic constant independent of the internal error detail; on success it
responds 200 with data derived from the upstream payload — the demand endpoint
returns `{data: first parsed CSV record}`, the emissions and pricing endpoints
return the unwrapped inner `data` array, none the verbatim upstream body. -/
theorem proxy_error_surface_amended :
    (∀ msg : String,
      DemandApi.handler (.error msg) = .failure 500 "Failed to fetch demand data") ∧
    (∀ msg : String,
      EmissionsApi.handler (.error msg) = .failure 500 "Failed to fetch emissions data") ∧
    (∀ msg : String,
      PricingApi.handler (.error msg) = .failure 500 "Failed to fetch pricing data") ∧
    (∀ records : List DemandRecord,
      DemandApi.handler (.ok records) = .success 200 records.head?) ∧
    (∀ rows, PricingApi.handler (.ok (some rows)) = .success 200 rows) ∧
    (∀ rows, EmissionsApi.handler (.ok (some rows)) = .success 200 rows) :=
  ⟨fun _ => rfl, fun _ => rfl, fun _ => rfl, fun _ => rfl, fun _ => rfl, fun _ => rfl⟩

/-! ## Home page aggregation step (`fetchData` in the Home component).

`fetchData` issues the four endpoint GETs sequentially inside one try/catch;
axios throws on network failure or on a non-2xx status (such as the proxy
handlers' 500 responses), modelled by `Except.error ()`.  The caught error is
only logged, leaving component state as it was at the throw point. -/

/-- A JavaScript value stored in a GridInfo field that may be either a number
or the string "N/A". -/
inductive JsValue where
  | num (q : ℚ)
  | str (s : String)
deriving DecidableEq

/-- `x || "N/A"` applied to a possibly-missing number: `undefined`, `NaN`
and `0` are all falsy, so they yield `"N/A"`. -/
def jsOrNA (x : Option ℚ) : JsValue :=
  match x with
  | none => .str "N/A"
  | some q => if q = 0 then .str "N/A" else .num q

/-- Two-digit zero-padded decimal fraction, as produced by `toFixed(2)`. -/
def twoDigits (n : ℕ) : String :=
  if n < 10 then "0" ++ toString n else toString n

/-- Decimal rendering of `toFixed(2)` once the scaled value has been rounded
to an integer number of hundredths. -/
def toFixed2Int (n : ℤ) : String :=
  if n < 0 then "-" ++ toString ((-n) / 100) ++ "." ++ twoDigits ((-n) % 100).toNat
  else toString (n / 100) ++ "." ++ twoDigits (n % 100).toNat

/-- Embedding of JavaScript `Number.prototype.toFixed(2)` on the rational
model: round to the nearest hundredth, ties towards the larger value. -/
def toFixed2 (q : ℚ) : String :=
  toFixed2Int ⌊q * 100 + 1 / 2⌋

/-- The `GridInfo` state object of the Home page.  `price` and `emissions`
hold either the upstream number or the string "N/A"; the remaining display
fields are strings. -/
structure GridInfo where
  time : String
  price : JsValue
  emissions : JsValue
  demand : String
  generation : String
  transfers : String
deriving DecidableEq

/-- The Home component state touched by `fetchData`: the `generationMix` and
`gridInfo` React states (`gridInfo` starts as `null`). -/
structure HomeState where
  generationMix : List FuelSource
  gridInfo : Option GridInfo
deriving DecidableEq

/-- `const demand = parseFloat(latestDemandData.ND) || 0`. -/
def demandOf (latestDemandData : DemandRecord) : ℚ :=
  latestDemandData.ND.getD 0

/-- `const transfers = [ ...seven flow fields... ].map(parseFloat || 0)
.reduce(+, 0)`. -/
def transfersOf (latestDemandData : DemandRecord) : ℚ :=
  ([latestDemandData.BRITNED_FLOW, latestDemandData.IFA_FLOW,
    latestDemandData.NEMO_FLOW, latestDemandData.ELECLINK_FLOW,
    latestDemandData.MOYLE_FLOW, latestDemandData.NSL_FLOW,
    latestDemandData.VIKING_FLOW].map (fun flow => flow.getD 0)).foldl
    (fun acc flow => acc + flow) 0

/-- Embedding of the Home page's `fetchData`.  The four arguments after `now`
are the outcomes of the sequential awaited GETs of `/api/energy-mix`,
`/api/emissions`, `/api/pricing` and `/api/demand`; `now` is the value
`new Date().toLocaleTimeString()` reads when the grid info is assembled.  The
demand payload is the endpoint's `{data: ...}` body, so `.ok none` models a
body whose `data` field is absent — reading `.ND` from it throws, landing in
the same catch as a failed fetch. -/
def fetchData (st : HomeState) (now : String)
    (mixR : Except Unit (List FuelSource))
    (emissionsR : Except Unit (List EmissionsData))
    (pricingR : Except Unit (List PricingData))
    (demandR : Except Unit (Option DemandRecord)) : HomeState :=
  match mixR with
  | .error _ => st
  | .ok mixData =>
    let st1 : HomeState := { st with generationMix := mixData }
    match emissionsR with
    | .error _ => st1
    | .ok emissionsData =>
      match pricingR with
      | .error _ => st1
      | .ok pricingData =>
        match demandR with
        | .error _ => st1
        | .ok demandBody =>
          match demandBody with
          | none => st1
          | some latestDemandData =>
            let demand := demandOf latestDemandData
            let transfers := transfersOf latestDemandData
            { st1 with gridInfo := some {
                time := now
                price := jsOrNA (pricingData.head?.bind (fun r => r.price))
                emissions := jsOrNA ((emissionsData.head?.bind
                  (fun r => r.intensity)).bind (fun i => i.forecast))
                demand := if demand = 0 then "N/A" else toFixed2 (demand / 1000)
                generation := toFixed2 (demand / 1000 - transfers / 1000)
                transfers := if transfers = 0 then "N/A"
                  else toFixed2 (transfers / 1000) } }

/-- A Home state with the cycle timestamp blanked, for comparing two cycles
"in every field except capturedAt". -/
def scrubTime (st : HomeState) : HomeState :=
  { st with gridInfo := st.gridInfo.map (fun g => { g with time := "" }) }

/-- C9. Determinism of aggregation: two runs of `fetchData` from the same
prior state over the same four Source Client outcomes produce states equal in
every field except the captured time. -/
theorem aggregation_deterministic (st : HomeState) (now1 now2 : String)
    (mixR : Except Unit (List FuelSource))
    (emissionsR : Except Unit (List EmissionsData))
    (pricingR : Except Unit (List PricingData))
    (demandR : Except Unit (Option DemandRecord)) :
    scrubTime (fetchData st now1 mixR emissionsR pricingR demandR)
      = scrubTime (fetchData st now2 mixR emissionsR pricingR demandR) := by
  cases mixR with
  | error e => rfl
  | ok m =>
    cases emissionsR with
    | error e => rfl
    | ok es =>
      cases pricingR with
      | error e => rfl
      | ok p =>
        cases demandR with
        | error e => rfl
        | ok d =>
          cases d with
          | none => rfl
          | some row => rfl

/-- C1 counterexample: a cycle in which exactly the Demand Source Client fails
(its endpoint's 500 makes axios throw) while Mix, Emissions and Pricing
succeed leaves `gridInfo` untouched (`none` from the initial state) instead of
publishing the other field groups: the price group is NOT populated with the
value (`50`) it receives in the fully successful cycle over the same feeds. -/
theorem fault_isolation_counterexample :
    (fetchData ⟨[], none⟩ "12:00" (.ok [⟨"wind", some 20⟩])
        (.ok [⟨some ⟨some 100, none, none⟩⟩]) (.ok [⟨"t0", some 50⟩])
        (.error ())).gridInfo = none ∧
    ((fetchData ⟨[], none⟩ "12:00" (.ok [⟨"wind", some 20⟩])
        (.ok [⟨some ⟨some 100, none, none⟩⟩]) (.ok [⟨"t0", some 50⟩])
        (.ok (some ⟨some 32000, some 1500, some 0, some 0, some 0, some 0,
          some 0, some 0⟩))).gridInfo.map (fun g => g.price))
      = some (.num 50) ∧
    (none : Option JsValue) ≠ some (.num 50) := by
  refine ⟨rfl, ?_, by simp⟩
  simp only [fetchData, Option.map, List.head?, Option.bind, jsOrNA]
  norm_num

/-- C1 amended.  `fetchData` runs all four fetches in one try/catch, so a
single throwing source aborts the whole state update rather than isolating
that source: a Mix failure leaves the state unchanged; a failure of
emissions, pricing or demand (or a demand body without `data`) updates
`generationMix` (fetched and stored first) but leaves `gridInfo` at its
previous value, refreshing no field group.  Only non-throwing degradations
are isolated per field: an empty pricing array (a 200 response) yields
`price = "N/A"` while the other fields are still computed. -/
theorem fault_isolation_amended :
    (∀ (st : HomeState) (now : String) e p d,
      fetchData st now (.error ()) e p d = st) ∧
    (∀ (st : HomeState) (now : String) m p d,
      fetchData st now (.ok m) (.error ()) p d = { st with generationMix := m }) ∧
    (∀ (st : HomeState) (now : String) m e d,
      fetchData st now (.ok m) (.ok e) (.error ()) d
        = { st with generationMix := m }) ∧
    (∀ (st : HomeState) (now : String) m e p,
      fetchData st now (.ok m) (.ok e) (.ok p) (.error ())
        = { st with generationMix := m }) ∧
    (∀ (st : HomeState) (now : String) m e p,
      fetchData st now (.ok m) (.ok e) (.ok p) (.ok none)
        = { st with generationMix := m }) ∧
    (∀ (st : HomeState) (now : String) m e row, ∃ g : GridInfo,
      (fetchData st now (.ok m) (.ok e) (.ok []) (.ok (some row))).gridInfo
        = some g ∧ g.price = .str "N/A") :=
  ⟨fun _ _ _ _ _ => rfl, fun _ _ _ _ _ => rfl, fun _ _ _ _ _ => rfl,
    fun _ _ _ _ _ => rfl, fun _ _ _ _ _ => rfl,
    fun _ _ _ _ _ => ⟨_, rfl, rfl⟩⟩

/-- C2 counterexample: with an unparsable/missing `ND` (so demand is unknown,
displayed "N/A") and flows summing to 1500, `generationGW` is not Unknown: the
code coerces the missing demand to 0 and publishes the partial arithmetic
result "-1.50". -/
theorem generation_derivation_counterexample :
    ((fetchData ⟨[], none⟩ "12:00" (.ok []) (.ok []) (.ok [])
        (.ok (some ⟨none, some 1500, some 0, some 0, some 0, some 0, some 0,
          some 0⟩))).gridInfo.map (fun g => (g.demand, g.generation)))
      = some ("N/A", "-1.50") ∧
    ("-1.50" : String) ≠ "N/A" := by
  constructor
  · have hd : demandOf ⟨none, some 1500, some 0, some 0, some 0, some 0,
        some 0, some 0⟩ = 0 := rfl
    have ht : transfersOf ⟨none, some 1500, some 0, some 0, some 0, some 0,
        some 0, some 0⟩ = 1500 := by
      simp only [transfersOf, List.map_cons, List.map_nil, Option.getD_some,
        List.foldl_cons, List.foldl_nil]
      norm_num
    have hg : toFixed2 (-((1500 : ℚ) / 1000)) = "-1.50" := by
      simp only [toFixed2]
      rw [(by norm_num : ⌊(-((1500 : ℚ) / 1000)) * 100 + 1 / 2⌋ = (-150 : ℤ))]
      decide
    simp [fetchData, hd, ht, hg]
  · decide

/-- C2 amended.  Whenever the demand feed succeeds with a record, the
published fields satisfy `generationGW = toFixed2(demand/1000 −
transfers/1000)` over the code's zero-defaulted demand and transfers values
(so the stated equation holds exactly whenever both are genuinely known and
nonzero, and the 32000/1500 scenario yields "32.00"/"1.50"/"30.50"), but when
demand or transfers is unknown the missing value is coerced to 0 and
`generationGW` is still that arithmetic result, never "N/A" — and an exactly
zero demand or transfers value itself displays as "N/A". -/
theorem generation_derivation_amended :
    (∀ (st : HomeState) (now : String) (m : List FuelSource)
        (e : List EmissionsData) (p : List PricingData) (row : DemandRecord),
      ∃ g : GridInfo,
        (fetchData st now (.ok m) (.ok e) (.ok p) (.ok (some row))).gridInfo
          = some g ∧
        g.demand = (if demandOf row = 0 then "N/A"
          else toFixed2 (demandOf row / 1000)) ∧
        g.transfers = (if transfersOf row = 0 then "N/A"
          else toFixed2 (transfersOf row / 1000)) ∧
        g.generation = toFixed2 (demandOf row / 1000 - transfersOf row / 1000)) ∧
    (∃ g : GridInfo,
      (fetchData ⟨[], none⟩ "14:05" (.ok []) (.ok []) (.ok [])
          (.ok (some ⟨some 32000, some 1500, some 0, some 0, some 0, some 0,
            some 0, some 0⟩))).gridInfo = some g ∧
      g.demand = "32.00" ∧ g.transfers = "1.50" ∧ g.generation = "30.50") := by
  constructor
  · intro st now m e p row
    exact ⟨_, rfl, rfl, rfl, rfl⟩
  · have hd : demandOf ⟨some 32000, some 1500, some 0, some 0, some 0, some 0,
        some 0, some 0⟩ = 32000 := rfl
    have ht : transfersOf ⟨some 32000, some 1500, some 0, some 0, some 0,
        some 0, some 0, some 0⟩ = 1500 := by
      simp only [transfersOf, List.map_cons, List.map_nil, Option.getD_some,
        List.foldl_cons, List.foldl_nil]
      norm_num
    have h1 : toFixed2 ((32000 : ℚ) / 1000) = "32.00" := by
      simp only [toFixed2]
      rw [(by norm_num : ⌊((32000 : ℚ) / 1000) * 100 + 1 / 2⌋ = (3200 : ℤ))]
      decide
    have h2 : toFixed2 ((1500 : ℚ) / 1000) = "1.50" := by
      simp only [toFixed2]
      rw [(by norm_num : ⌊((1500 : ℚ) / 1000) * 100 + 1 / 2⌋ = (150 : ℤ))]
      decide
    have h3 : toFixed2 ((32000 : ℚ) / 1000 - 1500 / 1000) = "30.50" := by
      simp only [toFixed2]
      rw [(by norm_num : ⌊((32000 : ℚ) / 1000 - 1500 / 1000) * 100 + 1 / 2⌋
        = (3050 : ℤ))]
      decide
    refine ⟨_, rfl, ?_, ?_, ?_⟩
    · simp only [hd]
      rw [if_neg (by norm_num : ¬(32000 : ℚ) = 0)]
      exact h1
    · simp only [ht]
      rw [if_neg (by norm_num : ¬(1500 : ℚ) = 0)]
      exact h2
    · simp only [hd, ht]
      exact h3

/-- C3 counterexample: a genuine zero price reading from the pricing feed is
published as "N/A", not as the number 0 — `price: pricingData?.[0]?.price ||
"N/A"` treats 0 as falsy. -/
theorem unknown_propagation_counterexample :
    ((fetchData ⟨[], none⟩ "12:00" (.ok []) (.ok [])
        (.ok [⟨"t0", some 0⟩])
        (.ok (some ⟨some 32000, some 0, some 0, some 0, some 0, some 0, some 0,
          some 0⟩))).gridInfo.map (fun g => g.price)) = some (.str "N/A") ∧
    JsValue.str "N/A" ≠ JsValue.num 0 := by
  constructor
  · simp [fetchData, jsOrNA]
  · simp

/-- C3 amended.  A feed value that is missing or unparsable is coerced to 0
(by `parseFloat(...) || 0`) or replaced by "N/A" (by `... || "N/A"`), so
absence does propagate as "N/A" for price, emissions and demand — but the
same falsy test converts a genuine zero reading to "N/A" as well, and only
nonzero readings are published as numbers. -/
theorem unknown_propagation_amended :
    (∀ (st : HomeState) (now : String) (m : List FuelSource)
        (e : List EmissionsData) (p : List PricingData) (row : DemandRecord),
      ∃ g : GridInfo,
        (fetchData st now (.ok m) (.ok e) (.ok p) (.ok (some row))).gridInfo
          = some g ∧
        g.price = jsOrNA (p.head?.bind (fun r => r.price)) ∧
        g.emissions = jsOrNA ((e.head?.bind (fun r => r.intensity)).bind
          (fun i => i.forecast)) ∧
        g.demand = (if demandOf row = 0 then "N/A"
          else toFixed2 (demandOf row / 1000))) ∧
    jsOrNA none = .str "N/A" ∧
    jsOrNA (some 0) = .str "N/A" ∧
    (∀ q : ℚ, q ≠ 0 → jsOrNA (some q) = .num q) := by
  refine ⟨?_, rfl, ?_, ?_⟩
  · intro st now m e p row
    exact ⟨_, rfl, rfl, rfl, rfl⟩
  · simp [jsOrNA]
  · intro q hq
    simp [jsOrNA, hq]

/-- Closed witness for C3's amended claim: the nonzero reading 50 is
published as the number 50. -/
theorem unknown_propagation_amended_witness :
    (50 : ℚ) ≠ 0 ∧ jsOrNA (some 50) = .num 50 :=
  ⟨by norm_num, unknown_propagation_amended.2.2.2 50 (by norm_num)⟩
